import Mathlib

/-!
Verification development for the furniture-store backend (`main.py`).

The document store (MongoDB accessed through pymongo) is embedded as an
optional in-memory state: `db : Option DB`, where `DB` carries the three
collections used by the handlers (`product`, `testimonial`, `order`).
`db = none` models the absent store handle (`db is None` in the source).

Mongo query documents built by the handlers are embedded as a `Query`
record whose evaluation `matchesQuery` follows the documented semantics of
the operators actually used by the source: `$regex` with options `"i"`
(case-insensitive unanchored regular-expression search), exact equality,
`$in` on an array field (any element of the stored array occurs in the
given list), `$gte` and `$lte`. `find(...).skip(n).limit(m)` is embedded
as `drop n` followed by `mongoLimit m`, where `mongoLimit 0` returns the
whole list because a limit of 0 is documented by MongoDB/pymongo as
"no limit". Python floats carry only comparisons here, so they are
embedded as rationals; Python ints used as counts are embedded as `Nat`.

ObjectId (from bson) is embedded by its canonical 24-character lowercase
hexadecimal string rendering: constructing `ObjectId(s)` succeeds exactly
when `s` is 24 hexadecimal characters, and `str(ObjectId(s))` lowercases
`s`.
-/

/-- A hexadecimal digit, as accepted by bson ObjectId parsing. -/
def isHexDigit (c : Char) : Bool :=
  c.isDigit || (Char.ofNat 97 ≤ c && c ≤ Char.ofNat 102) || (Char.ofNat 65 ≤ c && c ≤ Char.ofNat 70)

/-- Embedding of `ObjectId(product_id)`: succeeds exactly on 24-character
hexadecimal strings, returning the canonical (lowercase) rendering that
`str` of the resulting ObjectId produces. `none` models the raised
exception. -/
def parseObjectId (s : String) : Option String :=
  if s.length = 24 && s.data.all isHexDigit then some ⟨s.data.map Char.toLower⟩ else none

/-- A stored product document (collection `product`). `_id` is the
canonical string rendering of the store-assigned ObjectId. -/
structure ProductDoc where
  _id : String
  title : String
  description : Option String
  price : ℚ
  category : String
  rating : ℚ
  materials : List String
  images : List String
  is_new : Bool
  is_top_seller : Bool
deriving DecidableEq, Repr

/-- A stored testimonial document (collection `testimonial`). -/
structure TestimonialDoc where
  _id : String
  name : String
  message : String
  rating : Int
  avatar : Option String
deriving DecidableEq, Repr

/-- `Customer` schema of the source. -/
structure Customer where
  name : String
  email : String
  phone : Option String
  address : String
deriving DecidableEq, Repr

/-- `OrderItem` schema of the source; `quantity` is a Python int, with the
range constraint `ge=1` enforced by validation, not by the type. -/
structure OrderItem where
  product_id : String
  title : String
  price : ℚ
  quantity : Int
  image : Option String
deriving DecidableEq, Repr

/-- `OrderIn` schema of the source: the order-intake request body. -/
structure OrderIn where
  customer : Customer
  items : List OrderItem
  payment_method : String
deriving DecidableEq, Repr

/-- The pydantic range validation declared on `OrderItem`: `quantity ≥ 1`.
No other field of the order shape carries a constraint. -/
def validOrderItem (i : OrderItem) : Bool := 1 ≤ i.quantity

/-- The pydantic validation of the whole `OrderIn` shape. Note there is no
minimum-length constraint on `items`. -/
def validOrderIn (o : OrderIn) : Bool := o.items.all validOrderItem

/-- The document store: the three collections the handlers touch. -/
structure DB where
  product : List ProductDoc
  testimonial : List TestimonialDoc
  order : List OrderIn
deriving Repr

/-- An HTTP error raised via `HTTPException`. -/
structure HErr where
  status : Nat
  detail : String
deriving DecidableEq, Repr

/-! ## Regular-expression search (`$regex` with options `"i"`)

The source passes the raw `search` string to Mongo as a regular-expression
pattern. The embedding compiles each pattern character to an atom: `.` is
the any-character wildcard, every other character a literal. (Other PCRE
metacharacters are not given their special meaning by this embedding; the
theorems that quantify over patterns therefore restrict to patterns free
of all PCRE metacharacters, where literal interpretation is faithful, plus
the concrete wildcard pattern used as counterexample.) Matching is
unanchored — the pattern may match at any position — and case-insensitive,
per options `"i"`. -/

/-- One compiled pattern atom. -/
inductive RAtom where
  | any : RAtom
  | lit : Char → RAtom
deriving DecidableEq, Repr

/-- Compile a pattern string: `.` is the wildcard, all else literal. -/
def compilePattern (s : String) : List RAtom :=
  s.data.map fun c => if c = '.' then RAtom.any else RAtom.lit c

/-- Case-insensitive match of one atom against one character. -/
def atomMatches : RAtom → Char → Bool
  | RAtom.any, _ => true
  | RAtom.lit l, c => l.toLower = c.toLower

/-- Match a compiled pattern against the front of the text. -/
def matchAtomsFront : List RAtom → List Char → Bool
  | [], _ => true
  | _ :: _, [] => false
  | a :: as, c :: cs => atomMatches a c && matchAtomsFront as cs

/-- Unanchored search: the compiled pattern matches at some position. -/
def regexSearch (pats : List RAtom) : List Char → Bool
  | [] => matchAtomsFront pats []
  | c :: cs => matchAtomsFront pats (c :: cs) || regexSearch pats cs

/-- Embedding of the query clause `{"$regex": pattern, "$options": "i"}`
evaluated against a string field. -/
def regexMatchI (pattern text : String) : Bool :=
  regexSearch (compilePattern pattern) text.data

/-- The PCRE metacharacters. A pattern avoiding all of them is interpreted
fully literally by the regular-expression engine. -/
def pcreMetachars : List Char :=
  ['\\', '^', '$', '.', '|', '?', '*', '+', '(', ')', '[', ']', '\x7b', '\x7d']

/-- A pattern string free of every PCRE metacharacter. -/
def metaFree (s : String) : Bool := s.data.all fun c => !(pcreMetachars.contains c)

/-- Case-insensitive substring containment (the spec's description of the
search filter): `needle`, lowercased, is an infix of `hay`, lowercased. -/
def isSubstrI (needle hay : String) : Prop :=
  (needle.data.map Char.toLower) <:+: (hay.data.map Char.toLower)

instance (needle hay : String) : Decidable (isSubstrI needle hay) :=
  inferInstanceAs (Decidable (_ <:+: _))

/-! ## The catalog query builder (`list_products`) -/

/-- The Mongo query document `q` built by `list_products`, one field per
clause the source may add. -/
structure Query where
  title_regex : Option String
  category : Option String
  materials_in : Option (List String)
  price_gte : Option ℚ
  price_lte : Option ℚ
  rating_gte : Option ℚ
deriving Repr

/-- The empty query `{}`. -/
def Query.empty : Query := ⟨none, none, none, none, none, none⟩

/-- Split a character list at every comma, Python `split(",")` style:
the empty input yields one empty group, and every comma opens a new
group. -/
def splitCommaAux : List Char → List (List Char)
  | [] => [[]]
  | c :: rest =>
    match splitCommaAux rest with
    | [] => [[]]
    | g :: gs => if c = ',' then [] :: g :: gs else (c :: g) :: gs

/-- Python `s.split(",")`. -/
def pySplitComma (s : String) : List String := (splitCommaAux s.data).map fun l => ⟨l⟩

/-- Python `s.strip()`: drop leading and trailing whitespace. -/
def pyStrip (s : String) : String :=
  ⟨((s.data.dropWhile Char.isWhitespace).reverse.dropWhile Char.isWhitespace).reverse⟩

/-- Parsing of the `materials` parameter: split on commas, strip
whitespace, drop empty tokens. -/
def parseMaterials (s : String) : List String :=
  ((pySplitComma s).map pyStrip).filter fun m => m ≠ ""

/-- Query construction of `list_products`, clause by clause, mirroring the
source's truthiness tests (`if search:` etc. — `none` and the empty string
are both falsy). -/
def buildQuery (search category materials : Option String)
    (price_min price_max rating_min : Option ℚ) : Query :=
  let q0 := Query.empty
  let q1 := match search with
    | some s => if s ≠ "" then { q0 with title_regex := some s } else q0
    | none => q0
  let q2 := match category with
    | some c => if c ≠ "" then { q1 with category := some c } else q1
    | none => q1
  let q3 := match materials with
    | some ms =>
      if ms ≠ "" then
        let mats := parseMaterials ms
        if mats ≠ [] then { q2 with materials_in := some mats } else q2
      else q2
    | none => q2
  let q4 := { q3 with price_gte := price_min, price_lte := price_max }
  { q4 with rating_gte := rating_min }

/-- Evaluation of a query document against a product document, following
the semantics of the Mongo operators used: `$regex` with `"i"`, exact
match, `$in` against an array field (some stored material occurs in the
requested list), inclusive `$gte`/`$lte`. Absent clauses always pass. -/
def matchesQuery (q : Query) (p : ProductDoc) : Bool :=
  (match q.title_regex with | none => true | some pat => regexMatchI pat p.title) &&
  (match q.category with | none => true | some c => p.category = c) &&
  (match q.materials_in with | none => true | some mats => p.materials.any fun m => mats.contains m) &&
  (match q.price_gte with | none => true | some v => v ≤ p.price) &&
  (match q.price_lte with | none => true | some v => p.price ≤ v) &&
  (match q.rating_gte with | none => true | some v => v ≤ p.rating)

/-- `cursor.limit(n)`: a limit of `0` is documented as "no limit"; any
positive limit truncates. -/
def mongoLimit (n : Nat) (l : List α) : List α :=
  if n = 0 then l else l.take n

/-- A product as serialized for the client by `serialize_doc`: the `_id`
ObjectId is rendered as the string field `id`, all other fields kept. -/
structure ProductOut where
  id : String
  title : String
  description : Option String
  price : ℚ
  category : String
  rating : ℚ
  materials : List String
  images : List String
  is_new : Bool
  is_top_seller : Bool
deriving DecidableEq, Repr

/-- `serialize_doc` restricted to product documents. -/
def serializeProduct (d : ProductDoc) : ProductOut :=
  ⟨d._id, d.title, d.description, d.price, d.category, d.rating,
   d.materials, d.images, d.is_new, d.is_top_seller⟩

/-- The `{items, total, page, page_size}` envelope of `list_products`. -/
structure ListResponse where
  items : List ProductOut
  total : Nat
  page : Nat
  page_size : Nat
deriving DecidableEq, Repr

/-- Embedding of `list_products`: degraded empty envelope when the store
handle is absent; otherwise build the query, count all matches, and return
the page obtained by `skip((page-1)*page_size).limit(page_size)`. -/
def list_products (db : Option DB) (search category materials : Option String)
    (price_min price_max rating_min : Option ℚ) (page page_size : Nat) : ListResponse :=
  match db with
  | none => ⟨[], 0, page, page_size⟩
  | some s =>
    let q := buildQuery search category materials price_min price_max rating_min
    let matching := s.product.filter (matchesQuery q)
    let total := matching.length
    let skip := (page - 1) * page_size
    let items := (mongoLimit page_size (matching.drop skip)).map serializeProduct
    ⟨items, total, page, page_size⟩

/-- `list_products` with the route's default parameters applied: `page`
defaults to 1 and `page_size` to 12 when not supplied. -/
def list_products_defaults (db : Option DB) (search category materials : Option String)
    (price_min price_max rating_min : Option ℚ) (page page_size : Option Nat) : ListResponse :=
  list_products db search category materials price_min price_max rating_min
    (page.getD 1) (page_size.getD 12)

/-! ## Categories, curated feeds, detail lookup, testimonials, orders -/

/-- The `{categories}` response of `get_categories`. -/
structure CategoriesResponse where
  categories : List String
deriving DecidableEq, Repr

/-- The five featured categories forced to the front of the listing. -/
def featuredCategories : List String := ["Chair", "Sofa", "Bed", "Table", "Decor"]

/-- Embedding of `get_categories`: empty on an absent store; otherwise the
distinct category values (`distinct("category")`, in implementation-defined
order, embedded by `List.dedup`), with the featured five prepended and
removed from the tail. -/
def get_categories (db : Option DB) : CategoriesResponse :=
  match db with
  | none => ⟨[]⟩
  | some s =>
    let cats := (s.product.map fun d => d.category).dedup
    ⟨featuredCategories ++ cats.filter fun c => !(featuredCategories.contains c)⟩

/-- The `{items}` envelope of the curated feeds. -/
structure ItemsResponse where
  items : List ProductOut
deriving DecidableEq, Repr

/-- Embedding of `top_selling`: `find({"is_top_seller": True}).limit(8)`,
empty when the store handle is absent. -/
def top_selling (db : Option DB) : ItemsResponse :=
  match db with
  | none => ⟨[]⟩
  | some s => ⟨(mongoLimit 8 (s.product.filter fun d => d.is_top_seller)).map serializeProduct⟩

/-- Embedding of `new_arrivals`: `find({"is_new": True}).limit(8)`, empty
when the store handle is absent. -/
def new_arrivals (db : Option DB) : ItemsResponse :=
  match db with
  | none => ⟨[]⟩
  | some s => ⟨(mongoLimit 8 (s.product.filter fun d => d.is_new)).map serializeProduct⟩

/-- A testimonial as serialized for the client. -/
structure TestimonialOut where
  id : String
  name : String
  message : String
  rating : Int
  avatar : Option String
deriving DecidableEq, Repr

/-- `serialize_doc` restricted to testimonial documents. -/
def serializeTestimonial (d : TestimonialDoc) : TestimonialOut :=
  ⟨d._id, d.name, d.message, d.rating, d.avatar⟩

/-- The `{items}` envelope of `get_testimonials`. -/
structure TestimonialsResponse where
  items : List TestimonialOut
deriving DecidableEq, Repr

/-- Embedding of `get_testimonials`: `find({}).limit(8)`, empty when the
store handle is absent. -/
def get_testimonials (db : Option DB) : TestimonialsResponse :=
  match db with
  | none => ⟨[]⟩
  | some s => ⟨(mongoLimit 8 s.testimonial).map serializeTestimonial⟩

/-- The `{item, related}` response of `get_product`. -/
structure DetailResponse where
  item : ProductOut
  related : List ProductOut
deriving DecidableEq, Repr

/-- Embedding of `get_product`. The source raises 404 when the store
handle is absent, before looking at the identifier; then 400 when
`ObjectId(product_id)` raises; then 404 when `find_one` yields nothing;
on success it issues the related query
`find({"category": cat, "_id": {"$ne": oid}}).limit(4)`. -/
def get_product (db : Option DB) (product_id : String) : Except HErr DetailResponse :=
  match db with
  | none => Except.error ⟨404, "Product not found"⟩
  | some s =>
    match parseObjectId product_id with
    | none => Except.error ⟨400, "Invalid id"⟩
    | some oid =>
      match s.product.find? (fun d => d._id = oid) with
      | none => Except.error ⟨404, "Product not found"⟩
      | some doc =>
        let prod := serializeProduct doc
        let rel := s.product.filter fun d => d.category = prod.category && d._id ≠ oid
        Except.ok ⟨prod, (mongoLimit 4 rel).map serializeProduct⟩

/-- The `{id, status}` response of `create_order`. -/
structure OrderResponse where
  id : String
  status : String
deriving DecidableEq, Repr

/-- Modelled from the spec: `create_document` lives in `database.py`,
which is not part of the sources; per the spec it persists the document
verbatim in the named collection and returns the store-assigned unique
identifier rendered as a string. The generated identifier is embedded as
the rendering of the collection's size at insertion time. -/
def create_document (coll : List OrderIn) (doc : OrderIn) : String × List OrderIn :=
  (toString coll.length, coll ++ [doc])

/-- Embedding of `create_order`: 500 when the store handle is absent;
otherwise persist the validated payload as-is and answer with the
generated identifier and the fixed status token `"received"`. Returns the
response together with the post-state of the store. -/
def create_order (db : Option DB) (order : OrderIn) : Except HErr (OrderResponse × DB) :=
  match db with
  | none => Except.error ⟨500, "Database not available"⟩
  | some s =>
    let r := create_document s.order order
    Except.ok (⟨r.1, "received"⟩, { s with order := r.2 })

/-! ## Generic document serialization (`serialize_doc`)

`serialize_doc` works on raw documents (Python dicts), not on the typed
schemas, so it is embedded over a generic document model: a document is a
finite-support map from field names to optional BSON values. -/

/-- A BSON value as far as `serialize_doc` is concerned. -/
inductive BVal where
  | oid : String → BVal
  | str : String → BVal
  | num : ℚ → BVal
  | boolean : Bool → BVal
  | arr : List BVal → BVal
  | null : BVal
deriving Repr

/-- A raw document: a map from field names to values, `none` for an
absent field (`d.get(k)` yields Python's `None`). -/
def RawDoc : Type := String → Option BVal

/-- Python truthiness of `d.get("_id")`: absent and `None` are falsy, as
are empty strings, zero, `False` and empty lists; an ObjectId is always
truthy. -/
def pyTruthy : Option BVal → Bool
  | none => false
  | some (BVal.oid _) => true
  | some (BVal.str s) => s ≠ ""
  | some (BVal.num q) => q ≠ 0
  | some (BVal.boolean b) => b
  | some (BVal.arr l) => !l.isEmpty
  | some BVal.null => false

/-- Python `str` applied to the value found under `_id` (reached only
when that value is truthy; for an ObjectId it is the canonical
hexadecimal rendering, already the embedding of the identifier). -/
def pyStr : BVal → String
  | BVal.oid s => s
  | BVal.str s => s
  | BVal.num q => toString q
  | BVal.boolean b => if b then "True" else "False"
  | BVal.arr _ => "/list/"
  | BVal.null => "None"

/-- Embedding of `serialize_doc`: copy the document; when `_id` is
present and truthy, remove it and add `id` bound to its string rendering;
every other field is left as-is. -/
def serialize_doc (d : RawDoc) : RawDoc :=
  if pyTruthy (d "_id") then
    fun k =>
      if k = "_id" then none
      else if k = "id" then (d "_id").map fun v => BVal.str (pyStr v)
      else d k
  else d

/-! ## Concrete fixtures used by witnesses and counterexamples -/

/-- A products-only store with a single featured chair. -/
def oakChair : ProductDoc :=
  { _id := "aaaaaaaaaaaaaaaaaaaaaaaa", title := "Aero Lounge Chair", description := none,
    price := 499, category := "Chair", rating := 4, materials := ["Leather", "Oak"],
    images := [], is_new := false, is_top_seller := true }

/-- A store holding exactly `oakChair`. -/
def dbOne : DB := ⟨[oakChair], [], []⟩

/-- A product in the unlisted category `Lamp`. -/
def lampDoc : ProductDoc :=
  { _id := "bbbbbbbbbbbbbbbbbbbbbbbb", title := "Halo Pendant Light", description := none,
    price := 199, category := "Decor", rating := 4, materials := ["Brass"],
    images := [], is_new := true, is_top_seller := false }

/-- A store whose only product sits in the unlisted category `Lamp`. -/
def dbLamp : DB := ⟨[{ lampDoc with category := "Lamp" }], [], []⟩

/-- A chair document with the given identifier and title. -/
def mkChair (i t : String) : ProductDoc :=
  { _id := i, title := t, description := none, price := 100, category := "Chair",
    rating := 4, materials := [], images := [], is_new := true, is_top_seller := true }

/-- Six same-category products, for the related-items cap. -/
def db6 : DB :=
  ⟨[mkChair "000000000000000000000001" "C1", mkChair "000000000000000000000002" "C2",
    mkChair "000000000000000000000003" "C3", mkChair "000000000000000000000004" "C4",
    mkChair "000000000000000000000005" "C5", mkChair "000000000000000000000006" "C6"], [], []⟩

/-- The detail response for product 1 of `db6`. -/
def detailEx : DetailResponse :=
  ⟨serializeProduct (mkChair "000000000000000000000001" "C1"),
   [mkChair "000000000000000000000002" "C2", mkChair "000000000000000000000003" "C3",
    mkChair "000000000000000000000004" "C4",
    mkChair "000000000000000000000005" "C5"].map serializeProduct⟩

/-- A product whose title is the two-letter string `AB`. -/
def abDoc : ProductDoc :=
  { _id := "dddddddddddddddddddddddd", title := "AB", description := none, price := 1,
    category := "X", rating := 0, materials := [], images := [], is_new := false,
    is_top_seller := false }

/-- A sofa document, for the substring-search witness. -/
def sofaDoc : ProductDoc :=
  { _id := "eeeeeeeeeeeeeeeeeeeeeeee", title := "Cloud XL Sofa", description := none,
    price := 1299, category := "Sofa", rating := 5, materials := ["Fabric", "Pine"],
    images := [], is_new := true, is_top_seller := true }

/-- A raw document with an ObjectId under `_id` and one more field. -/
def rawDocEx : RawDoc := fun k =>
  if k = "_id" then some (BVal.oid "aabbccddeeff001122334455")
  else if k = "title" then some (BVal.str "Bed") else none

/-- A concrete customer for order fixtures. -/
def aCustomer : Customer := ⟨"Amelia R.", "amelia@example.com", none, "12 Oak Street"⟩

/-- The matching products of a listing request: the stored products that
satisfy the query the request builds. `list_products` counts exactly these
and pages within them. -/
def matchingProducts (s : DB) (search category materials : Option String)
    (price_min price_max rating_min : Option ℚ) : List ProductDoc :=
  s.product.filter (matchesQuery (buildQuery search category materials price_min price_max rating_min))

/-! ## Helper lemmas -/

theorem compilePattern_metaFree (s : String) (h : metaFree s = true) :
    compilePattern s = s.data.map RAtom.lit := by
  unfold compilePattern
  apply List.map_congr_left
  intro a ha
  have := (List.all_eq_true.mp h) a ha
  have hne : a ≠ '.' := by
    intro he
    subst he
    simp [pcreMetachars] at this
  simp [hne]

theorem matchAtomsFront_lit (ps : List Char) (cs : List Char) :
    matchAtomsFront (ps.map RAtom.lit) cs = true ↔
      ps.map Char.toLower <+: cs.map Char.toLower := by
  induction ps generalizing cs with
  | nil => simp [matchAtomsFront]
  | cons p ps ih =>
    cases cs with
    | nil => simp [matchAtomsFront]
    | cons c cs =>
      simp only [List.map_cons, matchAtomsFront, atomMatches, Bool.and_eq_true, decide_eq_true_eq,
        List.cons_prefix_cons, ih]

theorem regexSearch_iff (pats : List RAtom) (cs : List Char) :
    regexSearch pats cs = true ↔ ∃ n, matchAtomsFront pats (cs.drop n) = true := by
  induction cs with
  | nil =>
    simp only [regexSearch, List.drop_nil]
    exact ⟨fun h => ⟨0, h⟩, fun ⟨n, h⟩ => h⟩
  | cons c cs ih =>
    simp only [regexSearch, Bool.or_eq_true, ih]
    constructor
    · rintro (h | ⟨n, h⟩)
      · exact ⟨0, h⟩
      · exact ⟨n + 1, h⟩
    · rintro ⟨n, h⟩
      cases n with
      | zero => exact Or.inl h
      | succ n => exact Or.inr ⟨n, h⟩

theorem infix_iff_exists_drop {l₁ l₂ : List Char} :
    l₁ <:+: l₂ ↔ ∃ n, l₁ <+: l₂.drop n := by
  rw [List.infix_iff_prefix_suffix]
  constructor
  · rintro ⟨t, hp, hs⟩
    exact ⟨l₂.length - t.length, by rwa [← List.suffix_iff_eq_drop.mp hs]⟩
  · rintro ⟨n, hp⟩
    exact ⟨l₂.drop n, hp, List.drop_suffix n l₂⟩

theorem regexMatchI_iff_isSubstrI (p t : String) (h : metaFree p = true) :
    regexMatchI p t = true ↔ isSubstrI p t := by
  unfold regexMatchI isSubstrI
  rw [compilePattern_metaFree p h, regexSearch_iff, infix_iff_exists_drop]
  constructor
  · rintro ⟨n, hm⟩
    exact ⟨n, by rwa [matchAtomsFront_lit, List.map_drop] at hm⟩
  · rintro ⟨n, hm⟩
    exact ⟨n, by rwa [matchAtomsFront_lit, List.map_drop]⟩

theorem mongoLimit_of_pos {n : Nat} (h : n ≠ 0) (l : List α) :
    mongoLimit n l = l.take n := by
  simp [mongoLimit, h]

theorem length_mongoLimit_le {n : Nat} (h : n ≠ 0) (l : List α) :
    (mongoLimit n l).length ≤ n := by
  rw [mongoLimit_of_pos h]
  exact (List.length_take n l).le.trans (Nat.min_le_left _ _)

/-! ## Claim theorems -/

/-- Claim C5: a malformed product identifier yields the 400 bad-request
error, a well-formed identifier matching no stored product yields the 404
not-found error, and the two statuses are distinct. -/
theorem get_product_error_paths (s : DB) (pid : String) :
    (parseObjectId pid = none → get_product (some s) pid = Except.error ⟨400, "Invalid id"⟩) ∧
    (∀ oid, parseObjectId pid = some oid → (∀ d ∈ s.product, d._id ≠ oid) →
      get_product (some s) pid = Except.error ⟨404, "Product not found"⟩) ∧
    (400 : Nat) ≠ 404 := by
  refine ⟨fun h => ?_, fun oid h hab => ?_, by decide⟩
  · simp [get_product, h]
  · have hf : s.product.find? (fun d => d._id = oid) = none := by
      rw [List.find?_eq_none]
      intro d hd
      simpa using hab d hd
    simp [get_product, h, hf]

/-- Witness for C5: on a one-product store, the two-letter identifier
`"zz"` is rejected with 400, and the absent well-formed identifier of 24
`f` characters with 404. -/
theorem get_product_error_paths_witness :
    get_product (some dbOne) "zz" = Except.error ⟨400, "Invalid id"⟩ ∧
    get_product (some dbOne) "ffffffffffffffffffffffff" = Except.error ⟨404, "Product not found"⟩ :=
  ⟨(get_product_error_paths dbOne "zz").1 (by decide),
   (get_product_error_paths dbOne "ffffffffffffffffffffffff").2.1
     "ffffffffffffffffffffffff" (by decide) (by decide)⟩

/-- Claim C7: the order shape accepts an empty item list (no minimum
length is enforced on `items`), and order intake on an available store
persists the payload verbatim and answers with the generated identifier
and the fixed status token `"received"`. -/
theorem create_order_spec (s : DB) (o : OrderIn) :
    (∀ c pm, validOrderIn { customer := c, items := [], payment_method := pm } = true) ∧
    create_order (some s) o
      = Except.ok (⟨toString s.order.length, "received"⟩, { s with order := s.order ++ [o] }) :=
  ⟨fun _ _ => rfl, rfl⟩

/-- Counterexample for C8: with the store handle absent, the product
detail read endpoint does not return a degraded envelope — it fails with
the 404 error. -/
theorem get_product_store_absent_errors :
    (get_product none "aaaaaaaaaaaaaaaaaaaaaaaa").isOk = false ∧
    get_product none "aaaaaaaaaaaaaaaaaaaaaaaa" = Except.error ⟨404, "Product not found"⟩ :=
  ⟨rfl, rfl⟩

/-- Claim C8 (amended): with the store handle absent, the listing, the
category listing, both curated product feeds and the testimonials feed
return empty envelopes, order creation returns the 500 server error, and
the product detail endpoint raises the 404 not-found error instead of a
degraded envelope. -/
theorem store_unavailable_responses (search category materials : Option String)
    (pmin pmax rmin : Option ℚ) (page page_size : Nat) (pid : String) (o : OrderIn) :
    list_products none search category materials pmin pmax rmin page page_size
        = ⟨[], 0, page, page_size⟩ ∧
    get_categories none = ⟨[]⟩ ∧
    top_selling none = ⟨[]⟩ ∧
    new_arrivals none = ⟨[]⟩ ∧
    get_testimonials none = ⟨[]⟩ ∧
    get_product none pid = Except.error ⟨404, "Product not found"⟩ ∧
    create_order none o = Except.error ⟨500, "Database not available"⟩ :=
  ⟨rfl, rfl, rfl, rfl, rfl, rfl, rfl⟩

/-- Claim C10: serializing a document whose `_id` holds an ObjectId
removes `_id`, adds `id` bound to the string rendering of that ObjectId,
and leaves every other field untouched. -/
theorem serialize_doc_id_spec (d : RawDoc) (x : String) (h : d "_id" = some (BVal.oid x)) :
    serialize_doc d "_id" = none ∧ serialize_doc d "id" = some (BVal.str x) ∧
    ∀ k, k ≠ "_id" → k ≠ "id" → serialize_doc d k = d k := by
  have ht : pyTruthy (d "_id") = true := by rw [h]; rfl
  refine ⟨?_, ?_, fun k h1 h2 => ?_⟩
  · simp [serialize_doc, ht, h, pyTruthy, pyStr]
  · simp [serialize_doc, ht, h, pyTruthy, pyStr]
  · simp [serialize_doc, ht, h, pyTruthy, pyStr, h1, h2]

/-- Witness for C10: a concrete raw document with an ObjectId and a
`title` field: `_id` disappears, `id` carries the rendering, `title`
survives unchanged. -/
theorem serialize_doc_id_spec_witness :
    serialize_doc rawDocEx "_id" = none ∧
    serialize_doc rawDocEx "id" = some (BVal.str "aabbccddeeff001122334455") ∧
    serialize_doc rawDocEx "title" = rawDocEx "title" :=
  ⟨(serialize_doc_id_spec rawDocEx "aabbccddeeff001122334455" rfl).1,
   (serialize_doc_id_spec rawDocEx "aabbccddeeff001122334455" rfl).2.1,
   (serialize_doc_id_spec rawDocEx "aabbccddeeff001122334455" rfl).2.2 "title"
     (by decide) (by decide)⟩

/-- Claim C2: the materials filter parses the parameter by splitting on
commas, trimming and dropping empty tokens; a product passes when ANY of
its materials occurs in the parsed list; and an empty parsed list leaves
the query without a materials clause at all. -/
theorem materials_filter_spec (ms : String) (p : ProductDoc) :
    (matchesQuery (buildQuery none none (some ms) none none none) p = true ↔
      (parseMaterials ms = [] ∨ ∃ m ∈ p.materials, m ∈ parseMaterials ms)) ∧
    (∀ search category pmin pmax rmin, parseMaterials ms = [] →
      buildQuery search category (some ms) pmin pmax rmin
        = buildQuery search category none pmin pmax rmin) := by
  have hempty : parseMaterials "" = [] := by decide
  constructor
  · by_cases hms : ms = ""
    · subst hms
      simp [buildQuery, Query.empty, matchesQuery, hempty]
    · by_cases hpm : parseMaterials ms = []
      · simp [buildQuery, Query.empty, matchesQuery, hms, hpm]
      · simp [buildQuery, Query.empty, matchesQuery, hms, hpm, List.any_eq_true, List.elem_iff]
  · intro search category pmin pmax rmin hpm
    simp [buildQuery, hpm]

/-- Witness for C2: a product with materials `[Leather, Oak]` matches the
request `materials=Oak,Leather` (OR semantics), and the all-blank
parameter `" , "` parses to no tokens and adds no materials clause. -/
theorem materials_filter_spec_witness :
    matchesQuery (buildQuery none none (some "Oak,Leather") none none none) oakChair = true ∧
    parseMaterials " , " = [] ∧
    buildQuery none none (some " , ") none none none = buildQuery none none none none none none :=
  ⟨((materials_filter_spec "Oak,Leather" oakChair).1).mpr
      (Or.inr ⟨"Oak", by decide, by decide⟩),
   by decide,
   (materials_filter_spec " , " oakChair).2 none none none none none (by decide)⟩

/-- Counterexample for C4: on a store whose only product is in category
`Lamp`, the category listing still contains `Chair`, a category present on
no stored product — the result is not the set of categories present. -/
theorem get_categories_counterexample :
    "Chair" ∈ (get_categories (some dbLamp)).categories ∧
    ∀ d ∈ dbLamp.product, d.category ≠ "Chair" := by
  decide

/-- Claim C4 (amended): the category listing always begins with the five
featured categories in fixed order (present on products or not), followed
by exactly the other distinct categories present; every stored product's
category appears; the list has no duplicates. -/
theorem get_categories_spec (s : DB) :
    ((get_categories (some s)).categories.take 5 = featuredCategories) ∧
    (∀ c ∈ (get_categories (some s)).categories.drop 5,
      c ∉ featuredCategories ∧ ∃ d ∈ s.product, d.category = c) ∧
    (∀ d ∈ s.product, d.category ∈ (get_categories (some s)).categories) ∧
    (get_categories (some s)).categories.Nodup := by
  have hcats : (get_categories (some s)).categories
      = featuredCategories ++ ((s.product.map fun d => d.category).dedup.filter
          fun c => !(featuredCategories.contains c)) := rfl
  refine ⟨?_, ?_, ?_, ?_⟩
  · rw [hcats, show (5 : Nat) = featuredCategories.length from rfl, List.take_left]
  · rw [hcats, show (5 : Nat) = featuredCategories.length from rfl, List.drop_left]
    intro c hc
    obtain ⟨hmem, hpred⟩ := List.mem_filter.mp hc
    refine ⟨?_, ?_⟩
    · intro hin
      simp at hpred
      exact hpred hin
    · obtain ⟨d, hd, hdc⟩ := List.mem_map.mp (List.mem_dedup.mp hmem)
      exact ⟨d, hd, hdc⟩
  · intro d hd
    rw [hcats]
    by_cases hin : d.category ∈ featuredCategories
    · exact List.mem_append_left _ hin
    · refine List.mem_append_right _ (List.mem_filter.mpr ⟨?_, ?_⟩)
      · exact List.mem_dedup.mpr (List.mem_map.mpr ⟨d, hd, rfl⟩)
      · simp [List.elem_iff, hin]
  · rw [hcats, List.nodup_append]
    refine ⟨by decide, (List.nodup_dedup _).filter _, ?_⟩
    intro a ha hmem
    obtain ⟨-, hpred⟩ := List.mem_filter.mp hmem
    simp at hpred
    exact hpred ha

/-- Witness for C4: on the `Lamp`-only store the listing is exactly
`[Chair, Sofa, Bed, Table, Decor, Lamp]` and its first five entries are
the featured categories. -/
theorem get_categories_spec_witness :
    (get_categories (some dbLamp)).categories.take 5 = featuredCategories ∧
    (get_categories (some dbLamp)).categories
      = ["Chair", "Sofa", "Bed", "Table", "Decor", "Lamp"] :=
  ⟨(get_categories_spec dbLamp).1, by decide⟩

/-- Claim C6: a successful product detail lookup returns at most 4 related
products, each sharing the requested product's category, and none of them
carrying the requested product's identifier. -/
theorem get_product_related_spec (s : DB) (pid : String) (r : DetailResponse)
    (h : get_product (some s) pid = Except.ok r) :
    r.related.length ≤ 4 ∧
    ∀ x ∈ r.related, x.category = r.item.category ∧ x.id ≠ r.item.id := by
  cases hp : parseObjectId pid with
  | none => simp [get_product, hp] at h
  | some oid =>
    cases hf : s.product.find? (fun d => d._id = oid) with
    | none => simp [get_product, hp, hf] at h
    | some doc =>
      simp only [get_product, hp, hf] at h
      injection h with h
      have hdoc : doc._id = oid := by
        have hfind := List.find?_some hf
        exact of_decide_eq_true hfind
      subst h
      constructor
      · rw [List.length_map]
        exact length_mongoLimit_le (by decide) _
      · intro x hx
        obtain ⟨d, hd, hdx⟩ := List.mem_map.mp hx
        rw [mongoLimit_of_pos (by decide)] at hd
        have hd' := List.mem_of_mem_take hd
        obtain ⟨-, hpred⟩ := List.mem_filter.mp hd'
        simp only [Bool.and_eq_true, decide_eq_true_eq] at hpred
        obtain ⟨hcat', hne'⟩ := hpred
        subst hdx
        exact ⟨hcat', by simpa [serializeProduct, hdoc] using hne'⟩

/-- Witness for C6: in a store with six same-category products, looking up
the first returns exactly the next four as related, none of them the
requested product itself. -/
theorem get_product_related_spec_witness :
    get_product (some db6) "000000000000000000000001" = Except.ok detailEx ∧
    detailEx.related.length ≤ 4 :=
  ⟨by rfl,
   (get_product_related_spec db6 "000000000000000000000001" detailEx (by rfl)).1⟩

/-- Claim C9: each curated feed returns at most 8 items, returns nothing
when the store handle is absent, selects solely by its boolean flag (no
flag for testimonials), and — when few enough documents qualify — returns
all of them, unfiltered and unpaginated. -/
theorem curated_feeds_spec (db : Option DB) :
    ((top_selling db).items.length ≤ 8 ∧ (new_arrivals db).items.length ≤ 8 ∧
      (get_testimonials db).items.length ≤ 8) ∧
    (db = none → (top_selling db).items = [] ∧ (new_arrivals db).items = [] ∧
      (get_testimonials db).items = []) ∧
    (∀ s, db = some s →
      (∀ x ∈ (top_selling db).items,
        ∃ d ∈ s.product, d.is_top_seller = true ∧ x = serializeProduct d) ∧
      (∀ x ∈ (new_arrivals db).items,
        ∃ d ∈ s.product, d.is_new = true ∧ x = serializeProduct d) ∧
      (∀ x ∈ (get_testimonials db).items, ∃ d ∈ s.testimonial, x = serializeTestimonial d) ∧
      ((s.product.filter fun d => d.is_top_seller).length ≤ 8 →
        (top_selling db).items = (s.product.filter fun d => d.is_top_seller).map
          serializeProduct)) := by
  refine ⟨?_, ?_, ?_⟩
  · cases db with
    | none => exact ⟨by decide, by decide, by decide⟩
    | some s =>
      refine ⟨?_, ?_, ?_⟩ <;>
        simp only [top_selling, new_arrivals, get_testimonials, List.length_map] <;>
        exact length_mongoLimit_le (by decide) _
  · rintro rfl
    exact ⟨rfl, rfl, rfl⟩
  · rintro s rfl
    refine ⟨?_, ?_, ?_, ?_⟩
    · intro x hx
      simp only [top_selling, mongoLimit_of_pos (by decide : (8:Nat) ≠ 0)] at hx
      obtain ⟨d, hd, hdx⟩ := List.mem_map.mp hx
      have hd' := List.mem_of_mem_take hd
      obtain ⟨hmem, hflag⟩ := List.mem_filter.mp hd'
      exact ⟨d, hmem, hflag, hdx.symm⟩
    · intro x hx
      simp only [new_arrivals, mongoLimit_of_pos (by decide : (8:Nat) ≠ 0)] at hx
      obtain ⟨d, hd, hdx⟩ := List.mem_map.mp hx
      have hd' := List.mem_of_mem_take hd
      obtain ⟨hmem, hflag⟩ := List.mem_filter.mp hd'
      exact ⟨d, hmem, hflag, hdx.symm⟩
    · intro x hx
      simp only [get_testimonials, mongoLimit_of_pos (by decide : (8:Nat) ≠ 0)] at hx
      obtain ⟨d, hd, hdx⟩ := List.mem_map.mp hx
      exact ⟨d, List.mem_of_mem_take hd, hdx.symm⟩
    · intro hle
      simp only [top_selling, mongoLimit_of_pos (by decide : (8:Nat) ≠ 0)]
      rw [List.take_of_length_le hle]

/-- Witness for C9: on the six-chair store the top-selling feed holds at
most 8 items and every one of them is a stored top seller. -/
theorem curated_feeds_spec_witness :
    (top_selling (some db6)).items.length ≤ 8 ∧
    ∀ x ∈ (top_selling (some db6)).items,
      ∃ d ∈ db6.product, d.is_top_seller = true ∧ x = serializeProduct d :=
  ⟨(curated_feeds_spec (some db6)).1.1, ((curated_feeds_spec (some db6)).2.2 db6 rfl).1⟩

/-- Counterexample for C1: requesting `page_size=0` does not bound the
page at 0 items — the store treats a limit of 0 as "no limit", so a
one-product store returns 1 item, exceeding the supplied `page_size`. -/
theorem list_products_counterexample :
    ¬ ((list_products (some dbOne) none none none none none none 1 0).items.length
        ≤ (list_products (some dbOne) none none none none none none 1 0).page_size) := by
  decide

/-- Claim C1 (amended): for every store, filter combination, `page ≥ 1`
and `page_size ≥ 1`, the listing returns at most `page_size` items, its
total is the count of matching documents independent of pagination, the
page is the slice starting at offset `(page − 1) * page_size`, the
envelope echoes `page` and `page_size`, no upper bound is enforced on
`page_size` (a page size covering the whole match list returns all of
it), and `page`/`page_size` default to 1 and 12. A supplied `page_size`
of 0 is instead treated as "no limit" by the store. -/
theorem list_products_pagination (s : DB) (search category materials : Option String)
    (pmin pmax rmin : Option ℚ) (page page_size : Nat)
    (hpage : 1 ≤ page) (hsize : 1 ≤ page_size) :
    ((list_products (some s) search category materials pmin pmax rmin page page_size).items.length
        ≤ page_size) ∧
    ((list_products (some s) search category materials pmin pmax rmin page page_size).total
        = (matchingProducts s search category materials pmin pmax rmin).length) ∧
    ((list_products (some s) search category materials pmin pmax rmin page page_size).items
        = (((matchingProducts s search category materials pmin pmax rmin).drop
            ((page - 1) * page_size)).take page_size).map serializeProduct) ∧
    ((list_products (some s) search category materials pmin pmax rmin page page_size).page = page ∧
      (list_products (some s) search category materials pmin pmax rmin page page_size).page_size
        = page_size) ∧
    ((matchingProducts s search category materials pmin pmax rmin).length ≤ page_size →
      (list_products (some s) search category materials pmin pmax rmin 1 page_size).items
        = (matchingProducts s search category materials pmin pmax rmin).map serializeProduct) ∧
    (list_products_defaults (some s) search category materials pmin pmax rmin none none
        = list_products (some s) search category materials pmin pmax rmin 1 12) := by
  have hne : page_size ≠ 0 := by omega
  refine ⟨?_, rfl, ?_, ⟨rfl, rfl⟩, ?_, rfl⟩
  · simp only [list_products, List.length_map]
    exact length_mongoLimit_le hne _
  · simp only [list_products, matchingProducts, mongoLimit_of_pos hne]
  · intro hle
    simp only [list_products, matchingProducts] at hle ⊢
    rw [Nat.sub_self, Nat.zero_mul, List.drop_zero, mongoLimit_of_pos hne,
      List.take_of_length_le hle]

/-- Witness for C1: page 2 of size 1 on the six-chair store returns at
most one item, and exactly the second matching product. -/
theorem list_products_pagination_witness :
    1 ≤ 2 ∧ 1 ≤ 1 ∧
    (list_products (some db6) none none none none none none 2 1).items.length ≤ 1 :=
  ⟨by decide, by decide,
   (list_products_pagination db6 none none none none none none 2 1
     (by decide) (by decide)).1⟩

/-- Counterexample for C3: the search string is handed to the store as a
regular-expression pattern, not as a literal substring: the one-character
pattern `"."` matches the title `"AB"`, which does not contain a dot. -/
theorem search_filter_counterexample :
    matchesQuery (buildQuery (some ".") none none none none none) abDoc = true ∧
    ¬ isSubstrI "." abDoc.title := by
  exact ⟨by rfl, by decide⟩

/-- Claim C3 (amended): the search string is matched against the title as
a case-insensitive regular expression; for search strings free of regex
metacharacters this is exactly case-insensitive substring containment in
the title; and no query clause ever consults the description field. -/
theorem search_filter_spec (sv : String) (p : ProductDoc) (h : metaFree sv = true) :
    (matchesQuery (buildQuery (some sv) none none none none none) p = true ↔
      isSubstrI sv p.title) ∧
    (∀ q : Query, ∀ d : Option String,
      matchesQuery q { p with description := d } = matchesQuery q p) := by
  constructor
  · by_cases hsv : sv = ""
    · subst hsv
      constructor
      · intro
        show List.IsInfix _ _
        simp
      · intro
        rfl
    · have hq : matchesQuery (buildQuery (some sv) none none none none none) p
          = regexMatchI sv p.title := by
        simp [buildQuery, Query.empty, matchesQuery, hsv]
      rw [hq]
      exact regexMatchI_iff_isSubstrI sv p.title h
  · intro q d
    rfl

/-- Witness for C3: the metacharacter-free search `"ofa"` matches the
sofa titled `"Cloud XL Sofa"` exactly because it is a case-insensitive
substring of the title. -/
theorem search_filter_spec_witness :
    metaFree "ofa" = true ∧
    (matchesQuery (buildQuery (some "ofa") none none none none none) sofaDoc = true ↔
      isSubstrI "ofa" sofaDoc.title) :=
  ⟨by decide, (search_filter_spec "ofa" sofaDoc (by decide)).1⟩
